import Mathlib

/-!
Shallow embedding of the request-handling and data-shaping layer of the
Perfume 3D Shop API (`src/main.py`), together with theorems settling the
spec claims about it.

Store records are modelled as Python dicts: association lists from string
keys to JSON-like values.  The document-store collaborator (`database.py`,
not part of the sources) is modelled from the spec where needed.
-/

namespace PerfumeShop

/-- The values that appear in this service's records: strings, numbers
(modelled as rationals), booleans, the store's native ids (carried as their
canonical hex string), lists of strings (fragrance notes), and null. -/
inductive Value where
  | str : String → Value
  | num : ℚ → Value
  | bool : Bool → Value
  | oid : String → Value
  | strList : List String → Value
  | null : Value
  deriving DecidableEq

/-- A Python dict: an association list of string keys to values. -/
def Dict := List (String × Value)
  deriving DecidableEq

/-- Python `d.get(k)` / `d[k]` read on a dict. -/
def dget : Dict → String → Option Value
  | [], _ => none
  | (k2, v) :: d, k => if k2 == k then some v else dget d k

/-- Python `d[k] = v` write on a dict: updates the existing entry in place, or
appends a new one. -/
def dset : Dict → String → Value → Dict
  | [], k, v => [(k, v)]
  | (k2, v2) :: d, k, v => if k2 == k then (k, v) :: d else (k2, v2) :: dset d k v

/-- Python `del d[k]` on a dict. -/
def ddel : Dict → String → Dict
  | [], _ => []
  | (k2, v2) :: d, k => if k2 == k then ddel d k else (k2, v2) :: ddel d k

/-- Whether a dict is empty (Python truthiness of a dict). -/
def dempty (d : Dict) : Bool :=
  match d with
  | [] => true
  | _ :: _ => false

/-- The function `serialize_doc` of `src/main.py` lines 23-31: on a non-empty record
whose reserved key `_id` holds a native id, copies the record, sets
`id` to the id's string form and deletes `_id`; otherwise returns the
record as is. -/
def serialize_doc (doc : Dict) : Dict :=
  if dempty doc then doc
  else
    match dget doc "_id" with
    | some (Value.oid o) => ddel (dset doc "id" (Value.str o)) "_id"
    | _ => doc

theorem dget_ddel_self (d : Dict) (k : String) : dget (ddel d k) k = none := by
  induction d with
  | nil => rfl
  | cons hd tl ih =>
    obtain ⟨k2, v2⟩ := hd
    by_cases h : k2 = k
    · simp [ddel, h, ih]
    · simp [ddel, dget, h, ih]

theorem dget_ddel_ne (d : Dict) (k k2 : String) (h : k2 ≠ k) :
    dget (ddel d k) k2 = dget d k2 := by
  induction d with
  | nil => rfl
  | cons hd tl ih =>
    obtain ⟨k3, v3⟩ := hd
    by_cases h3 : k3 = k
    · subst h3
      have h5 : (k3 == k2) = false := by
        simp only [beq_eq_false_iff_ne, ne_eq]
        exact fun he => h he.symm
      simp [ddel, dget, h5, ih]
    · by_cases h4 : k3 = k2
      · subst h4
        simp [ddel, dget, h3]
      · simp [ddel, dget, h3, h4, ih]

theorem dget_dset_self (d : Dict) (k : String) (v : Value) :
    dget (dset d k v) k = some v := by
  induction d with
  | nil => simp [dset, dget]
  | cons hd tl ih =>
    obtain ⟨k2, v2⟩ := hd
    by_cases h : k2 = k
    · subst h
      simp [dset, dget]
    · simp [dset, dget, h, ih]

theorem dget_some_not_dempty (d : Dict) (k : String) (v : Value)
    (h : dget d k = some v) : dempty d = false := by
  cases d with
  | nil => simp [dget] at h
  | cons hd tl => rfl

/-- Claim C5: `serialize_doc` is idempotent: applying it twice yields the
same record as applying it once; and a record holding no native id under
the reserved key `_id` is returned unchanged. -/
theorem serialize_doc_idempotent (doc : Dict) :
    serialize_doc (serialize_doc doc) = serialize_doc doc ∧
    ((∀ o, dget doc "_id" ≠ some (Value.oid o)) → serialize_doc doc = doc) := by
  constructor
  · by_cases he : dempty doc = true
    · simp [serialize_doc, he]
    · have he2 : dempty doc = false := by
        cases h2 : dempty doc
        · rfl
        · exact absurd h2 he
      cases hid : dget doc "_id" with
      | none => simp [serialize_doc, he2, hid]
      | some v =>
        cases v with
        | oid o =>
          have h1 : dget (ddel (dset doc "id" (Value.str o)) "_id") "_id" = none :=
            dget_ddel_self _ _
          have h2 : dget (ddel (dset doc "id" (Value.str o)) "_id") "id" =
              some (Value.str o) := by
            rw [dget_ddel_ne _ _ _ (by decide)]
            exact dget_dset_self _ _ _
          have h3 : dempty (ddel (dset doc "id" (Value.str o)) "_id") = false :=
            dget_some_not_dempty _ _ _ h2
          conv_rhs => rw [serialize_doc]
          simp only [serialize_doc, he2, hid, if_false, Bool.false_eq_true, h3, h1]
        | str s => simp [serialize_doc, he2, hid]
        | num q => simp [serialize_doc, he2, hid]
        | bool b => simp [serialize_doc, he2, hid]
        | strList l => simp [serialize_doc, he2, hid]
        | null => simp [serialize_doc, he2, hid]
  · intro hno
    by_cases he : dempty doc = true
    · simp [serialize_doc, he]
    · have he2 : dempty doc = false := by
        cases h2 : dempty doc
        · rfl
        · exact absurd h2 he
      cases hid : dget doc "_id" with
      | none => simp [serialize_doc, he2, hid]
      | some v =>
        cases v with
        | oid o => exact absurd hid (hno o)
        | str s => simp [serialize_doc, he2, hid]
        | num q => simp [serialize_doc, he2, hid]
        | bool b => simp [serialize_doc, he2, hid]
        | strList l => simp [serialize_doc, he2, hid]
        | null => simp [serialize_doc, he2, hid]

/-- Witness for C5 at a concrete shaped record. -/
theorem serialize_doc_idempotent_witness :
    serialize_doc [("title", Value.str "X")] = [("title", Value.str "X")] :=
  (serialize_doc_idempotent [("title", Value.str "X")]).2
    (by intro o h; simp [dget] at h)

/-- Claim C4: on a store record whose entries under the reserved key `_id`
are native ids, `serialize_doc` leaves no `_id` key in the output; when the
record does hold a native id there, the output's `id` field is its canonical
string form.  In particular `_id` and `id` never coexist in the output. -/
theorem serialize_doc_replaces_native_id (doc : Dict)
    (hstore : ∀ v, dget doc "_id" = some v → ∃ o, v = Value.oid o) :
    dget (serialize_doc doc) "_id" = none ∧
    (∀ o, dget doc "_id" = some (Value.oid o) →
      dget (serialize_doc doc) "id" = some (Value.str o)) := by
  cases hid : dget doc "_id" with
  | none =>
    have he : serialize_doc doc = doc := by
      by_cases h : dempty doc = true
      · simp [serialize_doc, h]
      · have h2 : dempty doc = false := by
          cases hb : dempty doc
          · rfl
          · exact absurd hb h
        simp [serialize_doc, h2, hid]
    refine ⟨by rw [he, hid], ?_⟩
    intro o ho
    exact absurd ho (by simp)
  | some v =>
    obtain ⟨o, rfl⟩ := hstore v hid
    have h2 : dempty doc = false := dget_some_not_dempty _ _ _ hid
    have he : serialize_doc doc = ddel (dset doc "id" (Value.str o)) "_id" := by
      simp [serialize_doc, h2, hid]
    refine ⟨by rw [he]; exact dget_ddel_self _ _, ?_⟩
    intro o2 ho2
    have : o2 = o := by
      cases ho2
      rfl
    subst this
    rw [he, dget_ddel_ne _ _ _ (by decide)]
    exact dget_dset_self _ _ _

/-- Witness for C4 at a concrete store record. -/
theorem serialize_doc_replaces_native_id_witness :
    dget (serialize_doc
      [("_id", Value.oid "aabbccddeeff001122334455"), ("title", Value.str "X")])
      "_id" = none ∧
    dget (serialize_doc
      [("_id", Value.oid "aabbccddeeff001122334455"), ("title", Value.str "X")])
      "id" = some (Value.str "aabbccddeeff001122334455") := by
  have h := serialize_doc_replaces_native_id
    [("_id", Value.oid "aabbccddeeff001122334455"), ("title", Value.str "X")]
    (by intro v hv; simp [dget] at hv; exact ⟨"aabbccddeeff001122334455", hv.symm⟩)
  exact ⟨h.1, h.2 "aabbccddeeff001122334455" (by simp [dget])⟩

/-- The heap-level rendering of `serialize_doc` (`src/main.py` lines 23-31):
dicts live at addresses of a heap, `d = \x7b**doc\x7d` allocates a fresh copy at
the end of the heap, and the `id`/`_id` updates are writes to that fresh
address only.  Returns the heap after the call and the address of the
returned dict. -/
def serialize_doc_prog (h : List Dict) (a : Nat) : List Dict × Nat :=
  match h[a]? with
  | none => (h, a)
  | some doc =>
    if dempty doc then (h, a)
    else
      let na := h.length
      let h1 := h ++ [doc]
      match dget doc "_id" with
      | some (Value.oid o) =>
          (h1.set na (ddel (dset doc "id" (Value.str o)) "_id"), na)
      | _ => (h1, na)

/-- Claim C6: `serialize_doc` never mutates its input record: after the
call, the dict at the input's address is exactly what it was before; all
reshaping happens on the freshly allocated copy. -/
theorem serialize_doc_prog_preserves_input (h : List Dict) (a : Nat)
    (ha : a < h.length) :
    ((serialize_doc_prog h a).1)[a]? = h[a]? := by
  cases hd : h[a]? with
  | none => simp [serialize_doc_prog, hd]
  | some doc =>
    by_cases he : dempty doc = true
    · simp [serialize_doc_prog, hd, he]
    · have he2 : dempty doc = false := by
        cases hb : dempty doc
        · rfl
        · exact absurd hb he
      have hlt : h.length ≠ a := Nat.ne_of_gt ha
      have happ : (h ++ [doc])[a]? = h[a]? := List.getElem?_append_left ha
      cases hid : dget doc "_id" with
      | none =>
        simp [serialize_doc_prog, hd, he2, hid, happ]
      | some v =>
        cases v with
        | oid o =>
          simp only [serialize_doc_prog, hd, he2, hid, Bool.false_eq_true, if_false]
          rw [List.getElem?_set_ne hlt, happ]
          exact hd
        | str s => simp [serialize_doc_prog, hd, he2, hid, happ]
        | num q => simp [serialize_doc_prog, hd, he2, hid, happ]
        | bool b => simp [serialize_doc_prog, hd, he2, hid, happ]
        | strList l => simp [serialize_doc_prog, hd, he2, hid, happ]
        | null => simp [serialize_doc_prog, hd, he2, hid, happ]

/-- Witness for C6 at a concrete one-record heap. -/
theorem serialize_doc_prog_preserves_input_witness :
    ((serialize_doc_prog
        [[("_id", Value.oid "aabbccddeeff001122334455")]] 0).1)[0]? =
      [[("_id", Value.oid "aabbccddeeff001122334455")]][0]? :=
  serialize_doc_prog_preserves_input
    [[("_id", Value.oid "aabbccddeeff001122334455")]] 0 (by decide)

/-- The heap-level program computes the pure `serialize_doc` at its result
address, tying the two renderings together. -/
theorem serialize_doc_prog_result (h : List Dict) (a : Nat) (doc : Dict)
    (hd : h[a]? = some doc) :
    ((serialize_doc_prog h a).1)[(serialize_doc_prog h a).2]? =
      some (serialize_doc doc) := by
  by_cases he : dempty doc = true
  · simp [serialize_doc_prog, hd, he, serialize_doc]
  · have he2 : dempty doc = false := by
      cases hb : dempty doc
      · rfl
      · exact absurd hb he
    have hget : (h ++ [doc])[h.length]? = some doc :=
      List.getElem?_concat_length h doc
    cases hid : dget doc "_id" with
    | none => simp [serialize_doc_prog, hd, he2, hid, serialize_doc, hget]
    | some v =>
      cases v with
      | oid o =>
        simp only [serialize_doc_prog, hd, he2, hid, Bool.false_eq_true, if_false,
          serialize_doc]
        rw [List.getElem?_set_eq_of_lt]
        simp
      | str s => simp [serialize_doc_prog, hd, he2, hid, serialize_doc, hget]
      | num q => simp [serialize_doc_prog, hd, he2, hid, serialize_doc, hget]
      | bool b => simp [serialize_doc_prog, hd, he2, hid, serialize_doc, hget]
      | strList l => simp [serialize_doc_prog, hd, he2, hid, serialize_doc, hget]
      | null => simp [serialize_doc_prog, hd, he2, hid, serialize_doc, hget]

/-- An inbound POST /products JSON payload, with each `ProductIn` field
either absent (`none`) or supplied with a value of its declared type.
`rating` distinguishes an absent field from an explicit JSON null, since
`Optional[float] = Field(4.5, ...)` defaults only when the field is absent. -/
structure RawPayload where
  title : Option String
  description : Option String
  price : Option ℚ
  category : Option String
  in_stock : Option Bool
  image : Option String
  rating : Option (Option ℚ)
  notes : Option (List String)
  deriving DecidableEq

/-- The `ProductIn` pydantic model of `src/main.py` lines 35-43, after
validation: all defaults applied. -/
structure ProductIn where
  title : String
  description : Option String
  price : ℚ
  category : String
  in_stock : Bool
  image : Option String
  rating : Option ℚ
  notes : List String
  deriving DecidableEq

/-- The validation failures `ProductIn` can report (one per violated
constraint of `src/main.py` lines 35-43). -/
inductive ValidationError where
  | missing_title
  | missing_price
  | price_below_min
  | rating_out_of_bounds
  deriving DecidableEq

/-- The default rating 4.5 of `ProductIn.rating`, as the reduced rational
9/2 (written with the raw constructor so that proofs evaluate it). -/
def rating_default : ℚ := ⟨9, 2, by decide, by decide⟩

theorem rating_default_eq : rating_default = 9 / 2 := by
  rw [rating_default, Rat.mk'_eq_divInt, Rat.divInt_eq_div]
  norm_num

/-- The function `validate_create`: the validation pydantic performs for `ProductIn`
(`src/main.py` lines 35-43).  `title` and `price` are required
(`Field(...)`), `price` carries `ge=0`, `rating` carries `ge=0, le=5`
(checked only when a non-null value is supplied; an absent field defaults
to 4.5), and `category`, `in_stock`, `notes` default to `"perfume"`,
`True`, `[]`. -/
def validate_create (p : RawPayload) : Except ValidationError ProductIn :=
  match p.title with
  | none => .error .missing_title
  | some t =>
    match p.price with
    | none => .error .missing_price
    | some pr =>
      if pr < 0 then .error .price_below_min
      else
        match (match p.rating with
               | none => some rating_default
               | some ro => ro) with
        | some x =>
          if x < 0 ∨ 5 < x then .error .rating_out_of_bounds
          else .ok { title := t, description := p.description, price := pr,
                     category := p.category.getD "perfume",
                     in_stock := p.in_stock.getD true, image := p.image,
                     rating := some x, notes := p.notes.getD [] }
        | none =>
          .ok { title := t, description := p.description, price := pr,
                category := p.category.getD "perfume",
                in_stock := p.in_stock.getD true, image := p.image,
                rating := none, notes := p.notes.getD [] }

/-- Counterexample to claim C1 as stated: the payload with an empty title
and price 1 would have to be rejected (`title` empty), but `ProductIn`
carries no minimum length for `title`, so the code accepts it. -/
theorem validate_create_accepts_empty_title :
    (validate_create
      { title := some "", description := none, price := some 1,
        category := none, in_stock := none, image := none,
        rating := none, notes := none }).isOk = true ∧
    ({ title := some "", description := none, price := some 1,
       category := none, in_stock := none, image := none,
       rating := none, notes := none } : RawPayload).title = some "" := by
  exact ⟨by decide, rfl⟩

/-- Claim C1 (amended): `validate_create` accepts a payload exactly when
`title` is present, `price` is present and non-negative, and any supplied
non-null `rating` lies in `[0, 5]`; an empty `title` is accepted (the code
imposes no minimum length on it). -/
theorem validate_create_ok_iff (p : RawPayload) :
    (validate_create p).isOk = true ↔
      (p.title ≠ none ∧ p.price ≠ none ∧
       (∀ pr, p.price = some pr → 0 ≤ pr) ∧
       (∀ x, p.rating = some (some x) → 0 ≤ x ∧ x ≤ 5)) := by
  cases ht : p.title with
  | none => simp [validate_create, ht, Except.isOk, Except.toBool]
  | some t =>
    cases hp : p.price with
    | none => simp [validate_create, ht, hp, Except.isOk, Except.toBool]
    | some pr =>
      by_cases hneg : pr < 0
      · simp only [validate_create, ht, hp, hneg, if_true]
        constructor
        · intro h
          exact absurd h (by simp [Except.isOk, Except.toBool])
        · rintro ⟨-, -, hge, -⟩
          exact absurd (hge pr rfl) (not_le.mpr hneg)
      · have hge : 0 ≤ pr := not_lt.mp hneg
        cases hr : p.rating with
        | none =>
          have hx : ¬(rating_default < 0 ∨ 5 < rating_default) := by decide
          simp only [validate_create, ht, hp, hneg, if_false, hr, hx]
          constructor
          · intro _
            refine ⟨by simp, by simp, ?_, ?_⟩
            · intro pr2 hpr2
              cases hpr2
              exact hge
            · intro x hx2
              exact absurd hx2 (by simp)
          · intro _
            simp [Except.isOk, Except.toBool]
        | some ro =>
          cases ro with
          | none =>
            simp only [validate_create, ht, hp, hneg, if_false, hr]
            constructor
            · intro _
              refine ⟨by simp, by simp, ?_, ?_⟩
              · intro pr2 hpr2
                cases hpr2
                exact hge
              · intro x hx2
                exact absurd hx2 (by simp)
            · intro _
              simp [Except.isOk, Except.toBool]
          | some x =>
            by_cases hxr : x < 0 ∨ 5 < x
            · simp only [validate_create, ht, hp, hneg, if_false, hr, hxr, if_true]
              constructor
              · intro h
                exact absurd h (by simp [Except.isOk, Except.toBool])
              · rintro ⟨-, -, -, hrat⟩
                obtain ⟨h0, h5⟩ := hrat x rfl
                rcases hxr with hlt | hgt
                · exact absurd h0 (not_le.mpr hlt)
                · exact absurd h5 (not_le.mpr hgt)
            · simp only [validate_create, ht, hp, hneg, if_false, hr, hxr]
              constructor
              · intro _
                refine ⟨by simp, by simp, ?_, ?_⟩
                · intro pr2 hpr2
                  cases hpr2
                  exact hge
                · intro x2 hx2
                  have hx2e : x2 = x := by
                    cases hx2
                    rfl
                  subst hx2e
                  push_neg at hxr
                  exact ⟨hxr.1, hxr.2⟩
              · intro _
                simp [Except.isOk, Except.toBool]

/-- Claim C3: on a valid create payload, `validate_create` fills absent
optional fields with the defaults `category = "perfume"`,
`in_stock = true`, `rating = 4.5`, `notes = []`, and keeps every
caller-supplied field as given. -/
theorem validate_create_defaults (p : RawPayload) (prod : ProductIn)
    (h : validate_create p = .ok prod) :
    (p.category = none → prod.category = "perfume") ∧
    (p.in_stock = none → prod.in_stock = true) ∧
    (p.rating = none → prod.rating = some rating_default) ∧
    (p.notes = none → prod.notes = []) ∧
    (∀ t, p.title = some t → prod.title = t) ∧
    (∀ pr, p.price = some pr → prod.price = pr) ∧
    (∀ c, p.category = some c → prod.category = c) ∧
    (∀ b, p.in_stock = some b → prod.in_stock = b) ∧
    (∀ r, p.rating = some r → prod.rating = r) ∧
    (∀ ns, p.notes = some ns → prod.notes = ns) ∧
    prod.description = p.description ∧ prod.image = p.image := by
  cases ht : p.title with
  | none => simp [validate_create, ht] at h
  | some t =>
    cases hp : p.price with
    | none => simp [validate_create, ht, hp] at h
    | some pr =>
      by_cases hneg : pr < 0
      · simp [validate_create, ht, hp, hneg] at h
      · cases hr : p.rating with
        | none =>
          have hx : ¬(rating_default < 0 ∨ 5 < rating_default) := by decide
          simp only [validate_create, ht, hp, hneg, if_false, hr, hx,
            Except.ok.injEq] at h
          subst h
          refine ⟨fun hc => by simp [hc], fun hs => by simp [hs],
            fun _ => rfl, fun hn => by simp [hn],
            fun t2 ht2 => by cases ht2; rfl,
            fun pr2 hp2 => by cases hp2; rfl,
            fun c hc => by simp [hc],
            fun b hb => by simp [hb],
            fun r hrr => absurd hrr (by simp),
            fun ns hn => by simp [hn], rfl, rfl⟩
        | some ro =>
          cases ro with
          | none =>
            simp only [validate_create, ht, hp, hneg, if_false, hr,
              Except.ok.injEq] at h
            subst h
            refine ⟨fun hc => by simp [hc], fun hs => by simp [hs],
              fun hrn => absurd hrn (by simp),
              fun hn => by simp [hn],
              fun t2 ht2 => by cases ht2; rfl,
              fun pr2 hp2 => by cases hp2; rfl,
              fun c hc => by simp [hc],
              fun b hb => by simp [hb],
              fun r hrr => by cases hrr; rfl,
              fun ns hn => by simp [hn], rfl, rfl⟩
          | some x =>
            by_cases hxr : x < 0 ∨ 5 < x
            · simp [validate_create, ht, hp, hneg, hr, hxr] at h
            · simp only [validate_create, ht, hp, hneg, if_false, hr, hxr,
                Except.ok.injEq] at h
              subst h
              refine ⟨fun hc => by simp [hc], fun hs => by simp [hs],
                fun hrn => absurd hrn (by simp),
                fun hn => by simp [hn],
                fun t2 ht2 => by cases ht2; rfl,
                fun pr2 hp2 => by cases hp2; rfl,
                fun c hc => by simp [hc],
                fun b hb => by simp [hb],
                fun r hrr => by cases hrr; rfl,
                fun ns hn => by simp [hn], rfl, rfl⟩

/-- Witness for C3 at the spec's scenario payload
`\x7b"title": "X", "price": 10\x7d`. -/
theorem validate_create_defaults_witness :
    ∃ prod : ProductIn,
      validate_create
        { title := some "X", description := none, price := some 10,
          category := none, in_stock := none, image := none,
          rating := none, notes := none } = .ok prod ∧
      prod.category = "perfume" ∧ prod.in_stock = true ∧
      prod.rating = some rating_default ∧ prod.notes = [] ∧
      prod.title = "X" ∧ prod.price = 10 := by
  have hok : validate_create
      { title := some "X", description := none, price := some 10,
        category := none, in_stock := none, image := none,
        rating := none, notes := none } =
      .ok { title := "X", description := none, price := 10,
            category := "perfume", in_stock := true, image := none,
            rating := some rating_default, notes := [] } := by
    simp only [validate_create]
    norm_num
    intro hc
    exact absurd hc (by decide)
  have h := validate_create_defaults
    { title := some "X", description := none, price := some 10,
      category := none, in_stock := none, image := none,
      rating := none, notes := none }
    { title := "X", description := none, price := 10,
      category := "perfume", in_stock := true, image := none,
      rating := some rating_default, notes := [] } hok
  exact ⟨_, hok, h.1 rfl, h.2.1 rfl, h.2.2.1 rfl, h.2.2.2.1 rfl,
    h.2.2.2.2.1 "X" rfl, h.2.2.2.2.2.1 10 rfl⟩

/-- A FastAPI `HTTPException` as raised by the route handlers. -/
structure HTTPException where
  status_code : Nat
  detail : String
  deriving DecidableEq

/-- The effective limit the list handler passes to the store:
`min(limit, 100)` from `src/main.py` line 91.  There is no lower clamp. -/
def effective_limit (limit : ℤ) : ℤ := min limit 100

/-- Whether `pat` occurs as a contiguous substring of the second list. -/
def is_substring : List Char → List Char → Bool
  | pat, [] => pat.isEmpty
  | pat, c :: tl => pat.isPrefixOf (c :: tl) || is_substring pat tl

/-- Whether a record matches the list filter: no filter matches everything;
a filter text matches records whose `title` contains it as a
case-insensitive substring (the `$regex`/`$options: "i"` filter of
`src/main.py` line 90, for pattern texts without regex metacharacters). -/
def matches_filter (filt : Option String) (d : Dict) : Bool :=
  match filt with
  | none => true
  | some pat =>
    match dget d "title" with
    | some (Value.str t) => is_substring pat.toLower.data t.toLower.data
    | _ => false

/-- Modelled from the spec: `get_documents` of the absent `database`
module, the document store's find-many.  Returns the records of the
collection matching the filter, in the store's natural (insertion) order,
up to `limit` records (a non-positive limit yields none here). -/
def get_documents (coll : List Dict) (filt : Option String) (limit : ℤ) :
    List Dict :=
  (coll.filter (fun d => matches_filter filt d)).take limit.toNat

/-- Modelled from the spec: `create_document` of the absent `database`
module, the document store's insert-one.  Stores the record with a freshly
assigned native id under the reserved key `_id` (id generation is the
store's, modelled as any injective fresh scheme) and returns the id's
string form. -/
def create_document (coll : List Dict) (doc : Dict) : List Dict × String :=
  let oid := toString coll.length
  (coll ++ [dset doc "_id" (Value.oid oid)], oid)

/-- The filter GET /products builds from `q` (`src/main.py` lines 87-90):
only a truthy — non-empty — `q` yields a title filter. -/
def build_filter (q : Option String) : Option String :=
  match q with
  | some s => if s.isEmpty then none else some s
  | none => none

/-- GET /products (`src/main.py` lines 83-92): requires the store handle,
builds the title filter only from a truthy (non-empty) `q`, fetches with
`min(limit, 100)` and shapes each record. -/
def list_products (dbPresent : Bool) (coll : List Dict) (limit : ℤ)
    (q : Option String) : Except HTTPException (List Dict) :=
  if dbPresent = false then .error ⟨500, "Database not available"⟩
  else
    .ok ((get_documents coll (build_filter q)
          (effective_limit limit)).map serialize_doc)

/-- The validated product as a store record (`product.model_dump()`). -/
def product_dump (p : ProductIn) : Dict :=
  [("title", Value.str p.title),
   ("description", match p.description with
                   | some s => Value.str s
                   | none => Value.null),
   ("price", Value.num p.price),
   ("category", Value.str p.category),
   ("in_stock", Value.bool p.in_stock),
   ("image", match p.image with
             | some s => Value.str s
             | none => Value.null),
   ("rating", match p.rating with
              | some x => Value.num x
              | none => Value.null),
   ("notes", Value.strList p.notes)]

/-- POST /products (`src/main.py` lines 94-99): requires the store handle,
then inserts the validated product and returns the new id string. -/
def create_product (dbPresent : Bool) (coll : List Dict) (product : ProductIn) :
    Except HTTPException (List Dict × String) :=
  if dbPresent = false then .error ⟨500, "Database not available"⟩
  else .ok (create_document coll (product_dump product))

/-- Whether a string is a well-formed native id: `ObjectId(text)` accepts
exactly the 24-character hex strings. -/
def is_valid_object_id (s : String) : Bool :=
  s.length == 24 &&
    s.data.all (fun c =>
      c.isDigit || ('a' ≤ c && c ≤ 'f') || ('A' ≤ c && c ≤ 'F'))

/-- GET /products/{product_id} (`src/main.py` lines 101-112): requires the
store handle; a malformed id fails with 400 before any lookup; a
well-formed id is looked up (by its canonical lower-case form) and a
missing or falsy record yields 404; otherwise the record is shaped. -/
def get_product (dbPresent : Bool) (find_one : String → Option Dict)
    (product_id : String) : Except HTTPException Dict :=
  if dbPresent = false then .error ⟨500, "Database not available"⟩
  else if is_valid_object_id product_id = false then
    .error ⟨400, "Invalid product id"⟩
  else
    match find_one product_id.toLower with
    | none => .error ⟨404, "Product not found"⟩
    | some doc =>
      if dempty doc then .error ⟨404, "Product not found"⟩
      else .ok (serialize_doc doc)

/-- The three sample records of POST /seed (`src/main.py` lines 121-152). -/
def sample_products : List Dict :=
  [[("title", Value.str "Citrus Bloom Eau de Parfum"),
    ("description", Value.str
      "A bright, sparkling blend of bergamot, neroli, and white musk."),
    ("price", Value.num 68),
    ("category", Value.str "perfume"),
    ("in_stock", Value.bool true),
    ("image", Value.str
      "https://images.unsplash.com/photo-1541643600914-78b084683601?q=80&w=1200&auto=format&fit=crop"),
    ("rating", Value.num ⟨47, 10, by decide, by decide⟩),
    ("notes", Value.strList ["bergamot", "neroli", "white musk"])],
   [("title", Value.str "Amber Leaf Elixir"),
    ("description", Value.str
      "Warm amber wrapped in vanilla and a hint of tobacco leaf."),
    ("price", Value.num 84),
    ("category", Value.str "perfume"),
    ("in_stock", Value.bool true),
    ("image", Value.str
      "https://images.unsplash.com/photo-1595433707802-6b2626ef1c86?q=80&w=1200&auto=format&fit=crop"),
    ("rating", Value.num ⟨23, 5, by decide, by decide⟩),
    ("notes", Value.strList ["amber", "vanilla", "tobacco"])],
   [("title", Value.str "Verdant Whisper"),
    ("description", Value.str
      "Green tea freshness meets jasmine petals and cedarwood."),
    ("price", Value.num 72),
    ("category", Value.str "perfume"),
    ("in_stock", Value.bool true),
    ("image", Value.str
      "https://images.unsplash.com/photo-1563170423-18f482d82cc8?q=80&w=1200&auto=format&fit=crop"),
    ("rating", Value.num ⟨9, 2, by decide, by decide⟩),
    ("notes", Value.strList ["green tea", "jasmine", "cedarwood"])]]

/-- The body POST /seed returns: `\x7b"status", "message", "count"\x7d` on a
populated store, `\x7b"status", "inserted", "count"\x7d` after seeding. -/
structure SeedResult where
  status : String
  message : Option String
  inserted : Option Nat
  count : Nat
  deriving DecidableEq

/-- POST /seed (`src/main.py` lines 114-156): requires the store handle;
a populated collection (`count_documents > 0`) is reported as-is with no
insert; an empty one has every sample inserted via `create_document`, and
the post-insert count is reported.  Returns the collection after the call
alongside the response body. -/
def seed_products (dbPresent : Bool) (coll : List Dict) :
    Except HTTPException (List Dict × SeedResult) :=
  if dbPresent = false then .error ⟨500, "Database not available"⟩
  else
    let existing := coll.length
    if existing > 0 then
      .ok (coll, ⟨"ok", some "Products already exist", none, existing⟩)
    else
      let coll2 := sample_products.foldl (fun c s => (create_document c s).1) coll
      .ok (coll2, ⟨"ok", none, some sample_products.length, coll2.length⟩)

/-- The body of GET /test (`src/main.py` lines 54-80). -/
structure TestResponse where
  backend : String
  database : String
  database_url : Option String
  database_name : Option String
  connection_status : String
  collections : List String
  deriving DecidableEq

/-- GET /test (`src/main.py` lines 54-80): always returns a response body;
with no store handle the body reports the store as unavailable; with a
handle, listing the collections either succeeds (first 10 reported) or has
its error truncated into the body. -/
def test_database (dbPresent : Bool) (database_url_set : Bool)
    (database_name : Option String)
    (list_collection_names : Except String (List String)) : TestResponse :=
  if dbPresent then
    let url := if database_url_set then "✅ Set" else "❌ Not Set"
    let name := database_name.getD "❌ Not Set"
    match list_collection_names with
    | .ok cols =>
        { backend := "✅ Running", database := "✅ Connected & Working",
          database_url := some url, database_name := some name,
          connection_status := "Connected", collections := cols.take 10 }
    | .error e =>
        { backend := "✅ Running",
          database := "⚠️ Connected but Error: " ++ e.take 80,
          database_url := some url, database_name := some name,
          connection_status := "Not Connected", collections := [] }
  else
    { backend := "✅ Running", database := "⚠️ Available but not initialized",
      database_url := none, database_name := none,
      connection_status := "Not Connected", collections := [] }

/-- Counterexample to claim C2 as stated: a caller-requested limit of 0 is
passed to the store as `min(0, 100) = 0`, which does not lie in the
inclusive range [1, 100]; nothing raises it to at least 1. -/
theorem effective_limit_not_clamped_below :
    effective_limit 0 = 0 ∧ ¬(1 ≤ effective_limit 0) := by
  constructor
  · decide
  · decide

/-- Claim C2 (amended): the effective limit passed to the store is
`min(requested, 100)`: it never exceeds 100 (a caller requesting more than
100 receives at most 100 records), and a request of at most 100 — even one
below 1 — is passed through unchanged, with the record count bounded by
both 100 and the request. -/
theorem list_products_limit_bounds (coll : List Dict) (limit : ℤ)
    (q : Option String) (docs : List Dict)
    (h : list_products true coll limit q = .ok docs) :
    docs.length ≤ 100 ∧ docs.length ≤ limit.toNat ∧
    effective_limit limit ≤ 100 ∧
    (100 ≤ limit → effective_limit limit = 100) ∧
    (limit ≤ 100 → effective_limit limit = limit) := by
  have hd : docs =
      (get_documents coll (build_filter q)
        (effective_limit limit)).map serialize_doc := by
    simp only [list_products] at h
    exact (Except.ok.inj h).symm
  have hlen : docs.length ≤ (effective_limit limit).toNat := by
    rw [hd]
    simp only [List.length_map, get_documents]
    exact le_trans (List.length_take_le _ _) (le_refl _)
  refine ⟨?_, ?_, ?_, ?_, ?_⟩
  · refine le_trans hlen ?_
    have : effective_limit limit ≤ (100 : ℤ) := min_le_right _ _
    omega
  · refine le_trans hlen ?_
    have : effective_limit limit ≤ limit := min_le_left _ _
    omega
  · exact min_le_right _ _
  · intro h100
    exact min_eq_right h100
  · intro h100
    exact min_eq_left h100

/-- Witness for C2 (amended) at a caller-requested limit of 250 on a
one-record store. -/
theorem list_products_limit_bounds_witness :
    ([serialize_doc [("title", Value.str "X")]].length ≤ 100 ∧
     [serialize_doc [("title", Value.str "X")]].length ≤ (250 : ℤ).toNat ∧
     effective_limit 250 ≤ 100 ∧
     (100 ≤ (250 : ℤ) → effective_limit 250 = 100) ∧
     ((250 : ℤ) ≤ 100 → effective_limit 250 = 250)) :=
  list_products_limit_bounds [[("title", Value.str "X")]] 250 none
    [serialize_doc [("title", Value.str "X")]] rfl

/-- Claim C10: an empty filter string is treated the same as no filter:
with `q = ""` the list operation builds no title filter and returns every
record (of any title) up to the limit, shaped. -/
theorem list_products_empty_query (coll : List Dict) (limit : ℤ) :
    list_products true coll limit (some "") =
      list_products true coll limit none ∧
    list_products true coll limit (some "") =
      .ok ((coll.take (effective_limit limit).toNat).map serialize_doc) := by
  constructor
  · rfl
  · simp only [list_products, get_documents]
    have hall : coll.filter (fun d => matches_filter none d) = coll := by
      induction coll with
      | nil => rfl
      | cons hd tl ih => simp [List.filter, matches_filter, ih]
    rw [show build_filter (some "") = none from rfl, hall]
    rfl

/-- Claim C7: GET /products/{id} distinguishes a malformed id from an
absent record: a string that is not a well-formed native id fails with
400 "Invalid product id" (never 404), and a well-formed id with no
matching record fails with 404 "Product not found" (never a shape error). -/
theorem get_product_id_handling (find_one : String → Option Dict)
    (product_id : String) :
    (is_valid_object_id product_id = false →
      get_product true find_one product_id = .error ⟨400, "Invalid product id"⟩) ∧
    (is_valid_object_id product_id = true →
      find_one product_id.toLower = none →
      get_product true find_one product_id = .error ⟨404, "Product not found"⟩) := by
  constructor
  · intro hbad
    simp [get_product, hbad]
  · intro hgood hnone
    simp [get_product, hgood, hnone]

/-- Witness for C7: the malformed id "abc" yields 400, and a well-formed
24-hex id absent from the store yields 404. -/
theorem get_product_id_handling_witness :
    get_product true (fun _ => none) "abc" =
      .error ⟨400, "Invalid product id"⟩ ∧
    get_product true (fun _ => none) "0123456789abcdef01234567" =
      .error ⟨404, "Product not found"⟩ :=
  ⟨(get_product_id_handling (fun _ => none) "abc").1 (by decide),
   (get_product_id_handling (fun _ => none) "0123456789abcdef01234567").2
     (by decide) rfl⟩

/-- Claim C8: POST /seed on a collection that already holds at least one
record performs zero inserts (the collection is unchanged) and reports the
existing count; on an empty collection it inserts every sample and reports
`inserted = len(samples)` and `count = len(samples)`. -/
theorem seed_products_spec (coll : List Dict) :
    (0 < coll.length →
      seed_products true coll =
        .ok (coll, ⟨"ok", some "Products already exist", none, coll.length⟩)) ∧
    (coll.length = 0 →
      ∃ coll2, seed_products true coll =
          .ok (coll2, ⟨"ok", none, some sample_products.length,
                       sample_products.length⟩) ∧
        coll2.length = sample_products.length) := by
  constructor
  · intro hpos
    simp [seed_products, hpos]
  · intro hzero
    have hnil : coll = [] := List.length_eq_zero.mp hzero
    subst hnil
    exact ⟨sample_products.foldl (fun c s => (create_document c s).1) [],
      rfl, rfl⟩

/-- Witness for C8: seeding an empty store inserts the three samples;
seeding a one-record store changes nothing and reports count 1. -/
theorem seed_products_spec_witness :
    seed_products true [[("title", Value.str "X")]] =
      .ok ([[("title", Value.str "X")]],
           ⟨"ok", some "Products already exist", none, 1⟩) ∧
    ∃ coll2, seed_products true [] =
        .ok (coll2, ⟨"ok", none, some sample_products.length,
                     sample_products.length⟩) ∧
      coll2.length = sample_products.length :=
  ⟨(seed_products_spec [[("title", Value.str "X")]]).1 (by decide),
   (seed_products_spec []).2 rfl⟩

/-- Claim C9: with the store handle absent, every catalog operation
(list, create, get-by-id, seed) fails with the 500 "Database not
available" error — independently of the store's contents, i.e. before any
store operation — while GET /test still returns a success body that
reports the store as unavailable. -/
theorem store_unavailable_handling (coll : List Dict)
    (find_one : String → Option Dict) (limit : ℤ) (q : Option String)
    (product : ProductIn) (product_id : String) (database_url_set : Bool)
    (database_name : Option String)
    (list_collection_names : Except String (List String)) :
    list_products false coll limit q = .error ⟨500, "Database not available"⟩ ∧
    create_product false coll product = .error ⟨500, "Database not available"⟩ ∧
    get_product false find_one product_id =
      .error ⟨500, "Database not available"⟩ ∧
    seed_products false coll = .error ⟨500, "Database not available"⟩ ∧
    (test_database false database_url_set database_name
        list_collection_names).backend = "✅ Running" ∧
    (test_database false database_url_set database_name
        list_collection_names).database = "⚠️ Available but not initialized" := by
  exact ⟨rfl, rfl, rfl, rfl, rfl, rfl⟩

end PerfumeShop
